import Mathlib

/-!
# Verification of BRBIP32Sequence.c (loafwallet-core)

Shallow embedding of the BIP32 hierarchical-deterministic key-derivation
module `src/BRBIP32Sequence.c` and proofs about it.

Bytes are modelled as `Nat` values (< 256 where relevant), byte buffers as
`List Nat`.  The external collaborators (HMAC-SHA512, secp256k1 point
arithmetic, hash160, `BRKey` helpers) are declared in headers of the
repository but their code is not part of `src/`; they are modelled
abstractly as fields of a `Crypto` record, except for the modular scalar
addition whose behaviour the spec pins down exactly.
-/

namespace BIP32

/-- The hardened-index bit, `#define BIP32_HARD 0x80000000u`. -/
def BIP32_HARD : Nat := 0x80000000

/-- The curve order n of secp256k1 (the `mod n` of the spec). -/
def secp256k1_n : Nat :=
  0xFFFFFFFFFFFFFFFFFFFFFFFFFFFFFFFEBAAEDCE6AF48A03BBFD25E8CD0364141

/-- Big-endian serialization of `x` into `l` bytes (`ser256`/`ser32` of BIP32). -/
def serBE : Nat → Nat → List Nat
  | 0, _ => []
  | l + 1, x => serBE l (x / 256) ++ [x % 256]

/-- `ser32(i)`: 4-byte big-endian serialization, `be32` in the C code. -/
def ser32 (i : Nat) : List Nat := serBE 4 i

/-- `ser256(x)`: 32-byte big-endian serialization. -/
def ser256 (x : Nat) : List Nat := serBE 32 x

/-- `parse256`: read a byte list as a big-endian natural number. -/
def parse256 (b : List Nat) : Nat := b.foldl (fun a x => a * 256 + x) 0

/-- A buffer of `l` bytes, each a genuine byte value. -/
def ValidBytes (l : Nat) (b : List Nat) : Prop :=
  b.length = l ∧ ∀ x ∈ b, x < 256

instance (l : Nat) (b : List Nat) : Decidable (ValidBytes l b) := by
  unfold ValidBytes; infer_instance

/-- Modelled from the spec: `ScalarAddMod(a, b) -> scalar`, the collaborator
`secp256k1_mod_add` (declared in the repository's headers, code not in
`src/`).  Per the spec, `childScalar = (IL + parentScalar) mod n`: the two
32-byte big-endian scalars are added modulo the curve order. -/
def secp256k1_mod_add (a b : List Nat) : List Nat :=
  ser256 ((parse256 a + parse256 b) % secp256k1_n)

/-- Modelled from the spec: the external collaborator interfaces consumed by
the derivation core (hash module `HMAC_SHA512`, `Hash160`; curve module
`ScalarMultiply`, `PointAdd`; and the success of `BRKeyPubKey`, which "can
fail only if the underlying point-multiplication rejects the scalar").
Their implementations are not in `src/`, so the embedding is parametric in
them. -/
structure Crypto where
  /-- `HMAC_SHA512(key, message) -> 64 bytes` (`BRHMAC` with `BRSHA512`). -/
  hmac_sha512 : List Nat → List Nat → List Nat
  /-- `ScalarMultiply(scalar) -> CompressedPoint` (33 bytes),
  `secp256k1_point_mul` with the compressed flag set. -/
  point_mul : List Nat → List Nat
  /-- `PointAdd(P, Q) -> CompressedPoint`, `secp256k1_point_add`. -/
  point_add : List Nat → List Nat → List Nat
  /-- `Hash160(pubkey) -> 20 bytes`, used by `BRKeyHash160`. -/
  hash160 : List Nat → List Nat
  /-- Whether `BRKeyPubKey` succeeds for a given secret. -/
  keyPubKeyOk : List Nat → Bool

/-- `CKDpriv(k, c, i)` as implemented at `src/BRBIP32Sequence.c:51-71`:
build the 37-byte HMAC message (`0x00 ‖ k ‖ ser32(i)` when the hardened bit
of `i` is set, else `serP(point(k)) ‖ ser32(i)`), compute
`I = HMAC-SHA512(key = c, message)`, and return
`(secp256k1_mod_add(IL, k), IR)`. -/
def CKDpriv (C : Crypto) (k c : List Nat) (i : Nat) : List Nat × List Nat :=
  let buf := (if i &&& BIP32_HARD ≠ 0 then 0 :: k else C.point_mul k) ++ ser32 i
  let I := C.hmac_sha512 c buf
  (secp256k1_mod_add (I.take 32) k, (I.drop 32).take 32)

/-- `CKDpub(K, c, i)` as implemented at `src/BRBIP32Sequence.c:87-108`:
hardened indices return immediately with `K` and `c` untouched; otherwise
`I = HMAC-SHA512(key = c, message = K ‖ ser32(i))`, the chain code becomes
`IR` and the point becomes `point(IL) + K`. -/
def CKDpub (C : Crypto) (K c : List Nat) (i : Nat) : List Nat × List Nat :=
  if i &&& BIP32_HARD ≠ 0 then (K, c)
  else
    let buf := K ++ ser32 i
    let I := C.hmac_sha512 c buf
    (C.point_add (C.point_mul (I.take 32)) K, (I.drop 32).take 32)

/-- `BRMasterPubKey`: fingerprint of the true master key, chain code and
public key of the hardened account-0 node. -/
structure BRMasterPubKey where
  fingerPrint : List Nat
  chainCode : List Nat
  pubKey : List Nat
deriving DecidableEq

/-- `BR_MASTER_PUBKEY_NONE`: the all-zero sentinel. -/
def BR_MASTER_PUBKEY_NONE : BRMasterPubKey :=
  ⟨List.replicate 4 0, List.replicate 32 0, List.replicate 33 0⟩

/-- The ASCII bytes of `BIP32_SEED_KEY`, `"Bitcoin seed"`. -/
def BIP32_SEED_KEY : List Nat :=
  [66, 105, 116, 99, 111, 105, 110, 32, 115, 101, 101, 100]

/-- `BRBIP32MasterPubKey(seed, seedLen)` as implemented at
`src/BRBIP32Sequence.c:110-131`.  A null pointer is modelled as `none`, a
present seed of any length (zero included) as `some bytes`.  A null seed
returns the sentinel; otherwise `I = HMAC-SHA512("Bitcoin seed", seed)`,
the secret is `IL` and the chain code `IR`, the fingerprint is the first
4 bytes of hash160 of the secret's public key, one hardened `CKDpriv` at
index 0 produces the account node, and the record is returned unless
`BRKeyPubKey` fails on the account secret. -/
def BRBIP32MasterPubKey (C : Crypto) (seed : Option (List Nat)) : BRMasterPubKey :=
  match seed with
  | none => BR_MASTER_PUBKEY_NONE
  | some s =>
    let I := C.hmac_sha512 BIP32_SEED_KEY s
    let secret := I.take 32
    let chain := (I.drop 32).take 32
    let fp := (C.hash160 (C.point_mul secret)).take 4
    let acct := CKDpriv C secret chain (0 ||| BIP32_HARD)
    if C.keyPubKeyOk acct.1 then ⟨fp, acct.2, C.point_mul acct.1⟩
    else BR_MASTER_PUBKEY_NONE

/-- `BRBIP32PubKey(mpk, internal, index)` as implemented at
`src/BRBIP32Sequence.c:133-138`: the body declares an uninitialized
`BRPubKey pubKey;` and returns it, ignoring every argument.  The
indeterminate initial contents of the stack variable are made explicit as
the `uninit` parameter. -/
def BRBIP32PubKey (uninit : List Nat) (_mpk : BRMasterPubKey)
    (_internal : Nat) (_index : Nat) : List Nat :=
  uninit

/-- `BRBIP32PrivKey(key, seed, seedlen, internal, index)` as implemented at
`src/BRBIP32Sequence.c:140-143`: the body is empty, so the caller's output
buffer `key` is left exactly as it was. -/
def BRBIP32PrivKey (key : List Nat) (_seed : Option (List Nat))
    (_seedlen : Nat) (_internal : Nat) (_index : Nat) : List Nat :=
  key

/-- `BRBIP32PrivKeyList` as implemented at `src/BRBIP32Sequence.c:145-149`:
empty body, output buffer untouched. -/
def BRBIP32PrivKeyList (keys : List (List Nat)) (_count : Nat)
    (_seed : Option (List Nat)) (_seedlen : Nat) (_internal : Nat)
    (_indexes : List Nat) : List (List Nat) :=
  keys

/-- `BRBIP32SerializeMasterPrivKey(s, len, seed, slen)` as implemented at
`src/BRBIP32Sequence.c:151-154`: `return 0;`, nothing written.  The result
pairs the returned length with the (unchanged) output buffer. -/
def BRBIP32SerializeMasterPrivKey (s : List Nat) (_len : Nat)
    (_seed : Option (List Nat)) (_slen : Nat) : Nat × List Nat :=
  (0, s)

/-- `BRBIP32SerializeMasterPubKey(s, len, mpk)` as implemented at
`src/BRBIP32Sequence.c:156-159`: `return 0;`, nothing written. -/
def BRBIP32SerializeMasterPubKey (s : List Nat) (_len : Nat)
    (_mpk : BRMasterPubKey) : Nat × List Nat :=
  (0, s)

/-! ## Spec-level definitions

Written from the spec's words (§4.1, §4.2), with the child scalar as a
natural number, to be compared with the byte-level code embeddings. -/

/-- Spec §4.2 `CKDpriv(parentScalar, parentChainCode, index)`: the message
is `0x00 ‖ ser256(parentScalar) ‖ ser32(index)` when the hardened bit of
`index` is set, else `serP(point(parentScalar)) ‖ ser32(index)`;
`I = HMAC-SHA512(key = parentChainCode, message)`;
`childScalar = (IL + parentScalar) mod n`, `childChainCode = IR`. -/
def CKDpriv_spec (C : Crypto) (parentScalar : Nat) (parentChainCode : List Nat)
    (index : Nat) : Nat × List Nat :=
  let message :=
    if index &&& BIP32_HARD ≠ 0 then 0 :: ser256 parentScalar ++ ser32 index
    else C.point_mul (ser256 parentScalar) ++ ser32 index
  let I := C.hmac_sha512 parentChainCode message
  let IL := parse256 (I.take 32)
  let IR := (I.drop 32).take 32
  ((IL + parentScalar) % secp256k1_n, IR)

/-- Spec §4.1 `DeriveMasterPublicKey(seed)`:
`I = HMAC-SHA512("Bitcoin seed", seed)`, `IL` the master secret scalar and
`IR` the master chain code, fingerprint the first 32 bits of
`hash160(pubkey-of(IL))`, one hardened `CKDpriv` at index 0 for the account
node, and the record `{fingerprint, account chainCode, account pubKey}`
(the "none" sentinel when the account public-key computation fails). -/
def DeriveMasterPublicKey_spec (C : Crypto) (seed : List Nat) : BRMasterPubKey :=
  let I := C.hmac_sha512 BIP32_SEED_KEY seed
  let IL := parse256 (I.take 32)
  let IR := (I.drop 32).take 32
  let fingerprint := (C.hash160 (C.point_mul (ser256 IL))).take 4
  let acct := CKDpriv_spec C IL IR (0 ||| BIP32_HARD)
  if C.keyPubKeyOk (ser256 acct.1) then
    ⟨fingerprint, acct.2, C.point_mul (ser256 acct.1)⟩
  else BR_MASTER_PUBKEY_NONE

/-! ## Contents of stack locals at function return

`memset(buf, 0, sizeof(buf))` is modelled as replacing a buffer by zeros;
for each function the model below returns the value its secret-bearing
locals hold at the moment the function returns. -/

/-- `memset(b, 0, sizeof(b))`. -/
def memset0 (b : List Nat) : List Nat := List.replicate b.length 0

/-- The values of `CKDpriv`'s stack locals `buf` and `I` when it returns:
the source memsets both (`src/BRBIP32Sequence.c:69-70`). -/
def CKDpriv_localsAtReturn (C : Crypto) (k c : List Nat) (i : Nat) :
    List Nat × List Nat :=
  let buf := (if i &&& BIP32_HARD ≠ 0 then 0 :: k else C.point_mul k) ++ ser32 i
  let I := C.hmac_sha512 c buf
  (memset0 buf, memset0 I)

/-- The values of `CKDpub`'s stack locals `buf`, `I`, `pIL` when it
returns; on the hardened early-return path they are never declared
(`none`), otherwise all three are memset (`src/BRBIP32Sequence.c:105-107`). -/
def CKDpub_localsAtReturn (C : Crypto) (K c : List Nat) (i : Nat) :
    Option (List Nat × List Nat × List Nat) :=
  if i &&& BIP32_HARD ≠ 0 then none
  else
    let buf := K ++ ser32 i
    let I := C.hmac_sha512 c buf
    let pIL := C.point_mul (I.take 32)
    some (memset0 buf, memset0 I, memset0 pIL)

/-- The values of `BRBIP32MasterPubKey`'s secret-bearing locals `I`,
`secret`, `chain` when it returns: the source contains no memset or other
cleansing call (`src/BRBIP32Sequence.c:110-131`), so `I` still holds the
64-byte HMAC of the seed and `secret`/`chain` hold the account-level values
written into them in place by `CKDpriv`. -/
def BRBIP32MasterPubKey_localsAtReturn (C : Crypto) (seed : List Nat) :
    List Nat × List Nat × List Nat :=
  let I := C.hmac_sha512 BIP32_SEED_KEY seed
  let secret := I.take 32
  let chain := (I.drop 32).take 32
  let acct := CKDpriv C secret chain (0 ||| BIP32_HARD)
  (I, acct.1, acct.2)

/-! ## Concrete collaborator instantiations (for witnesses and
counterexamples) -/

/-- A concrete, well-formed collaborator instantiation: the HMAC always
returns the 64 bytes `1, …, 64`. -/
def CW : Crypto where
  hmac_sha512 := fun _ _ => (List.range 64).map (· + 1)
  point_mul := fun _ => List.replicate 33 2
  point_add := fun p _ => p
  hash160 := fun _ => List.replicate 20 7
  keyPubKeyOk := fun _ => true

/-- A second concrete collaborator instantiation, whose HMAC left half
parses to the curve order `n` whenever the message ends in byte `0` (so the
child-index-0 candidate is invalid in the sense of the spec's validity
check) and to `7` otherwise. -/
def Ccex : Crypto where
  hmac_sha512 := fun _ msg =>
    if msg.getLast? = some 0 then ser256 secp256k1_n ++ List.replicate 32 3
    else ser256 7 ++ List.replicate 32 9
  point_mul := fun _ => List.replicate 33 2
  point_add := fun p _ => p
  hash160 := fun _ => List.replicate 20 7
  keyPubKeyOk := fun _ => true

/-! ## Serialization round-trip lemmas -/

theorem parse256_append_singleton (a : List Nat) (x : Nat) :
    parse256 (a ++ [x]) = parse256 a * 256 + x := by
  unfold parse256
  rw [List.foldl_append]
  rfl

theorem serBE_length (l x : Nat) : (serBE l x).length = l := by
  induction l generalizing x with
  | zero => rfl
  | succ l ih => simp [serBE, ih]

theorem serBE_valid (l x : Nat) : ∀ b ∈ serBE l x, b < 256 := by
  induction l generalizing x with
  | zero => simp [serBE]
  | succ l ih =>
    intro b hb
    simp only [serBE, List.mem_append, List.mem_singleton] at hb
    rcases hb with hb | hb
    · exact ih _ _ hb
    · subst hb; exact Nat.mod_lt _ (by norm_num)

theorem parse256_serBE (l x : Nat) : parse256 (serBE l x) = x % 256 ^ l := by
  induction l generalizing x with
  | zero => simp [serBE, parse256, Nat.mod_one]
  | succ l ih =>
    rw [serBE, parse256_append_singleton, ih]
    have h1 : x % 256 ^ (l + 1) / 256 = x / 256 % 256 ^ l := by
      rw [pow_succ, Nat.mul_comm (256 ^ l) 256]
      exact Nat.mod_mul_right_div_self x 256 (256 ^ l)
    have h2 : x % 256 ^ (l + 1) % 256 = x % 256 :=
      Nat.mod_mod_of_dvd x (dvd_pow_self 256 (Nat.succ_ne_zero l))
    omega

theorem serBE_parse256 (b : List Nat) (hv : ∀ x ∈ b, x < 256) :
    serBE b.length (parse256 b) = b := by
  induction b using List.reverseRecOn with
  | nil => rfl
  | append_singleton b a ih =>
    have ha : a < 256 := hv a (by simp)
    have hb : ∀ x ∈ b, x < 256 := fun x hx => hv x (by simp [hx])
    rw [List.length_append, List.length_singleton, serBE,
      parse256_append_singleton]
    have hd : (parse256 b * 256 + a) / 256 = parse256 b := by omega
    have hm : (parse256 b * 256 + a) % 256 = a := by omega
    rw [hd, hm, ih hb]

theorem ser256_parse256 (b : List Nat) (hv : ValidBytes 32 b) :
    ser256 (parse256 b) = b := by
  obtain ⟨hl, hb⟩ := hv
  have := serBE_parse256 b hb
  rwa [hl] at this

theorem validBytes_take_32 (b : List Nat) (h : ValidBytes 64 b) :
    ValidBytes 32 (b.take 32) := by
  obtain ⟨hl, hb⟩ := h
  refine ⟨?_, fun x hx => hb x (List.mem_of_mem_take hx)⟩
  rw [List.length_take, hl]
  decide

/-! ## Shared refinement lemmas -/

/-- `CKDpriv` agrees with the spec-level `CKDpriv_spec` on every valid
32-byte parent scalar: the child is the 32-byte big-endian form of the
spec's child scalar and the chain code is `IR`. -/
theorem ckdpriv_eq_spec_aux (C : Crypto) (k c : List Nat) (i : Nat)
    (hk : ValidBytes 32 k) :
    CKDpriv C k c i =
      (ser256 (CKDpriv_spec C (parse256 k) c i).1,
       (CKDpriv_spec C (parse256 k) c i).2) := by
  have hser := ser256_parse256 k hk
  rcases Decidable.em (i &&& BIP32_HARD ≠ 0) with h | h <;>
    simp only [CKDpriv, CKDpriv_spec, secp256k1_mod_add, hser, if_pos h,
      if_neg h, List.cons_append]

/-- `BRBIP32MasterPubKey` agrees with the spec-level
`DeriveMasterPublicKey_spec` whenever the HMAC collaborator returns a
genuine 64-byte block for the seed call. -/
theorem masterPubKey_eq_spec_aux (C : Crypto) (seed : List Nat)
    (hI : ValidBytes 64 (C.hmac_sha512 BIP32_SEED_KEY seed)) :
    BRBIP32MasterPubKey C (some seed) = DeriveMasterPublicKey_spec C seed := by
  have hsecret := ser256_parse256 _ (validBytes_take_32 _ hI)
  have hckd := ckdpriv_eq_spec_aux C ((C.hmac_sha512 BIP32_SEED_KEY seed).take 32)
    (((C.hmac_sha512 BIP32_SEED_KEY seed).drop 32).take 32) (0 ||| BIP32_HARD)
    (validBytes_take_32 _ hI)
  simp only [BRBIP32MasterPubKey, DeriveMasterPublicKey_spec, hsecret, hckd]

/-! ## Claims -/

/-- C1: for every non-null seed (with the HMAC collaborator returning a
genuine 64-byte block), `BRBIP32MasterPubKey` computes
`I = HMAC-SHA512("Bitcoin seed", seed)`, takes `IL` as the master secret
scalar and `IR` as the master chain code, sets the fingerprint to the
first 32 bits of hash160 of the master public key, performs one hardened
child derivation at index 0 via `CKDpriv`, and returns the record
`{master fingerprint, account chain code, account public key}` — i.e. it
coincides with the spec-level `DeriveMasterPublicKey_spec`. -/
theorem C1_masterPubKey_follows_spec (C : Crypto) (seed : List Nat)
    (hI : ValidBytes 64 (C.hmac_sha512 BIP32_SEED_KEY seed)) :
    BRBIP32MasterPubKey C (some seed) = DeriveMasterPublicKey_spec C seed :=
  masterPubKey_eq_spec_aux C seed hI

/-- Witness for C1 at the concrete collaborators `CW` and the 16-zero-byte
seed. -/
theorem C1_masterPubKey_follows_spec_witness :
    BRBIP32MasterPubKey CW (some (List.replicate 16 0)) =
      DeriveMasterPublicKey_spec CW (List.replicate 16 0) :=
  C1_masterPubKey_follows_spec CW (List.replicate 16 0) (by decide)

/-- C2 (code bug): the claimed agreement of `BRBIP32PubKey` with the
public-point projection of `BRBIP32PrivKey` is not implemented — at the
concrete input (seed = 16 zero bytes, chainType 0, index 0),
`BRBIP32PubKey` returns its uninitialized stack variable unchanged,
ignoring the master public key and the path, and `BRBIP32PrivKey` leaves
the caller's key buffer untouched. -/
theorem C2_pubKey_privKey_are_stubs :
    BRBIP32PubKey (List.replicate 33 0xAB)
        (BRBIP32MasterPubKey CW (some (List.replicate 16 0))) 0 0 =
      List.replicate 33 0xAB ∧
    BRBIP32PrivKey (List.replicate 32 0xCD) (some (List.replicate 16 0)) 16 0 0 =
      List.replicate 32 0xCD :=
  ⟨rfl, rfl⟩

/-- C3: for every valid 32-byte parent scalar, chain code and index,
`CKDpriv` builds the HMAC message as `0x00 ‖ ser256(parent) ‖ ser32(index)`
when the hardened bit is set and as
`compressed-point(parent) ‖ ser32(index)` otherwise, computes
`I = HMAC-SHA512(key = parent chain code, message)` and returns
`childScalar = (IL + parent) mod n` (in 32-byte big-endian form) and
`childChainCode = IR` — i.e. it coincides with the spec-level
`CKDpriv_spec`. -/
theorem C3_ckdpriv_follows_spec (C : Crypto) (k c : List Nat) (i : Nat)
    (hk : ValidBytes 32 k) :
    CKDpriv C k c i =
      (ser256 (CKDpriv_spec C (parse256 k) c i).1,
       (CKDpriv_spec C (parse256 k) c i).2) :=
  ckdpriv_eq_spec_aux C k c i hk

/-- Witness for C3 at the concrete collaborators `CW`, parent scalar
`32 × 9`, chain code `32 × 1`, hardened index `2^31`. -/
theorem C3_ckdpriv_follows_spec_witness :
    CKDpriv CW (List.replicate 32 9) (List.replicate 32 1) 2147483648 =
      (ser256 (CKDpriv_spec CW (parse256 (List.replicate 32 9))
        (List.replicate 32 1) 2147483648).1,
       (CKDpriv_spec CW (parse256 (List.replicate 32 9))
        (List.replicate 32 1) 2147483648).2) :=
  C3_ckdpriv_follows_spec CW (List.replicate 32 9) (List.replicate 32 1)
    2147483648 (by decide)

/-- C4 counterexample: at parent scalar `ser256 5`, chain code `32 × 1`,
non-hardened index 0 under the collaborators `Ccex`, the HMAC left half
parses to the curve order `n` — an invalid candidate in the sense of the
claim — yet `CKDpriv` emits the reduced child `(IL + parent) mod n` with
chain code `IR` instead of retrying: its result differs from the index-1
derivation, so no retry at `index+1` happened. -/
theorem C4_ckd_retry_counterexample :
    secp256k1_n ≤ parse256 ((Ccex.hmac_sha512 (List.replicate 32 1)
      ((if (0 : Nat) &&& BIP32_HARD ≠ 0 then 0 :: ser256 5
        else Ccex.point_mul (ser256 5)) ++ ser32 0)).take 32) ∧
    CKDpriv Ccex (ser256 5) (List.replicate 32 1) 0 =
      (ser256 5, List.replicate 32 3) ∧
    CKDpriv Ccex (ser256 5) (List.replicate 32 1) 0 ≠
      CKDpriv Ccex (ser256 5) (List.replicate 32 1) 1 := by
  decide

/-- C4 amended: neither `CKDpriv` nor `CKDpub` contains a validity branch.
Even when the HMAC left half `IL` parses to a value `≥ n`, `CKDpriv`
unconditionally returns `((IL + parent) mod n, IR)`, and `CKDpub` (on a
non-hardened index) unconditionally returns `(point(IL) + K, IR)`; the
retry-at-`index+1` policy exists only in comments and is left to callers. -/
theorem C4_ckd_no_validity_branch (C : Crypto) (k K c : List Nat) (i : Nat)
    (hIL : secp256k1_n ≤ parse256 ((C.hmac_sha512 c
      ((if i &&& BIP32_HARD ≠ 0 then 0 :: k else C.point_mul k) ++
        ser32 i)).take 32)) :
    CKDpriv C k c i =
      (secp256k1_mod_add ((C.hmac_sha512 c
          ((if i &&& BIP32_HARD ≠ 0 then 0 :: k else C.point_mul k) ++
            ser32 i)).take 32) k,
       ((C.hmac_sha512 c
          ((if i &&& BIP32_HARD ≠ 0 then 0 :: k else C.point_mul k) ++
            ser32 i)).drop 32).take 32) ∧
    (i &&& BIP32_HARD = 0 →
      CKDpub C K c i =
        (C.point_add (C.point_mul ((C.hmac_sha512 c (K ++ ser32 i)).take 32)) K,
         ((C.hmac_sha512 c (K ++ ser32 i)).drop 32).take 32)) := by
  refine ⟨rfl, fun h0 => ?_⟩
  simp only [CKDpub, h0]
  simp

/-- Witness for the amended C4 at the collaborators `Ccex`, where the index-0
HMAC left half is exactly `n`. -/
theorem C4_ckd_no_validity_branch_witness :
    CKDpriv Ccex (ser256 5) (List.replicate 32 1) 0 =
      (secp256k1_mod_add ((Ccex.hmac_sha512 (List.replicate 32 1)
          ((if (0 : Nat) &&& BIP32_HARD ≠ 0 then 0 :: ser256 5
            else Ccex.point_mul (ser256 5)) ++ ser32 0)).take 32) (ser256 5),
       ((Ccex.hmac_sha512 (List.replicate 32 1)
          ((if (0 : Nat) &&& BIP32_HARD ≠ 0 then 0 :: ser256 5
            else Ccex.point_mul (ser256 5)) ++ ser32 0)).drop 32).take 32) ∧
    ((0 : Nat) &&& BIP32_HARD = 0 →
      CKDpub Ccex (List.replicate 33 2) (List.replicate 32 1) 0 =
        (Ccex.point_add (Ccex.point_mul ((Ccex.hmac_sha512 (List.replicate 32 1)
            (List.replicate 33 2 ++ ser32 0)).take 32)) (List.replicate 33 2),
         ((Ccex.hmac_sha512 (List.replicate 32 1)
            (List.replicate 33 2 ++ ser32 0)).drop 32).take 32)) :=
  C4_ckd_no_validity_branch Ccex (ser256 5) (List.replicate 33 2)
    (List.replicate 32 1) 0 (by decide)

/-- C5: for every parent point, chain code and index with the hardened bit
set, `CKDpub` returns immediately without producing a child key, leaving
the parent point (and chain code) exactly as supplied. -/
theorem C5_ckdpub_rejects_hardened (C : Crypto) (K c : List Nat) (i : Nat)
    (h : i &&& BIP32_HARD ≠ 0) :
    CKDpub C K c i = (K, c) := by
  simp only [CKDpub, if_pos h]

/-- Witness for C5 at the concrete collaborators `CW` and hardened index
`2^31`. -/
theorem C5_ckdpub_rejects_hardened_witness :
    CKDpub CW (List.replicate 33 2) (List.replicate 32 1) 2147483648 =
      (List.replicate 33 2, List.replicate 32 1) :=
  C5_ckdpub_rejects_hardened CW (List.replicate 33 2) (List.replicate 32 1)
    2147483648 (by decide)

/-- C6 counterexample: with a non-null seed of length 0, the code does not
return the all-zero sentinel — only a null pointer is special-cased, so the
empty seed goes through the full computation (here under the concrete
collaborators `CW`, yielding fingerprint `[7,7,7,7] ≠ [0,0,0,0]`). -/
theorem C6_empty_seed_counterexample :
    BRBIP32MasterPubKey CW (some []) ≠ BR_MASTER_PUBKEY_NONE := by
  decide

/-- C6 amended: for a null seed `BRBIP32MasterPubKey` returns the all-zero
sentinel and does not crash; a non-null seed of length 0 is not treated
specially — the function performs the normal derivation over the empty
message (agreeing with the spec-level algorithm applied to the empty
seed). -/
theorem C6_null_sentinel_empty_not_special (C : Crypto)
    (hI : ValidBytes 64 (C.hmac_sha512 BIP32_SEED_KEY [])) :
    BRBIP32MasterPubKey C none = BR_MASTER_PUBKEY_NONE ∧
    BRBIP32MasterPubKey C (some []) = DeriveMasterPublicKey_spec C [] :=
  ⟨rfl, masterPubKey_eq_spec_aux C [] hI⟩

/-- Witness for the amended C6 at the concrete collaborators `CW`. -/
theorem C6_null_sentinel_empty_not_special_witness :
    BRBIP32MasterPubKey CW none = BR_MASTER_PUBKEY_NONE ∧
    BRBIP32MasterPubKey CW (some []) = DeriveMasterPublicKey_spec CW [] :=
  C6_null_sentinel_empty_not_special CW (by decide)

/-- C7 (code bug): `BRBIP32PrivKey` has an empty body — for every output
buffer, seed, chain type and index it writes nothing, leaving the caller's
key buffer unchanged (and `BRBIP32PrivKeyList` likewise), instead of the
claimed master-derivation followed by three `CKDpriv` steps. -/
theorem C7_privKey_writes_nothing (key : List Nat) (seed : Option (List Nat))
    (seedlen internal index : Nat) (keys : List (List Nat)) (count : Nat)
    (indexes : List Nat) :
    BRBIP32PrivKey key seed seedlen internal index = key ∧
    BRBIP32PrivKeyList keys count seed seedlen internal indexes = keys :=
  ⟨rfl, rfl⟩

/-- C8 (code bug): both serializers unconditionally `return 0` and write
nothing, for every input and every output-buffer capacity — contradicting
the claim that they return the (nonzero) formatted or required length. -/
theorem C8_serialize_returns_zero (s : List Nat) (len : Nat)
    (seed : Option (List Nat)) (slen : Nat) (mpk : BRMasterPubKey) :
    BRBIP32SerializeMasterPrivKey s len seed slen = (0, s) ∧
    BRBIP32SerializeMasterPubKey s len mpk = (0, s) :=
  ⟨rfl, rfl⟩

/-- C9 (code bug): `CKDpriv` and `CKDpub` do memset their secret-bearing
locals to zero before returning, but `BRBIP32MasterPubKey` contains no
zeroization at all — at seed = 16 zero bytes its 64-byte local `I` (the
HMAC output holding the master secret and chain code) is still non-zero at
return. -/
theorem C9_masterPubKey_locals_not_zeroed :
    CKDpriv_localsAtReturn CW (List.replicate 32 9) (List.replicate 32 1)
        2147483648 = (List.replicate 37 0, List.replicate 64 0) ∧
    CKDpub_localsAtReturn CW (List.replicate 33 2) (List.replicate 32 1) 0 =
      some (List.replicate 37 0, List.replicate 64 0, List.replicate 33 0) ∧
    (BRBIP32MasterPubKey_localsAtReturn CW (List.replicate 16 0)).1 ≠
      List.replicate 64 0 := by
  decide

/-- C10: for every index with the hardened bit set, `CKDpub` leaves the
chain code exactly equal to its input, and its whole result is independent
of the crypto collaborators — the rejection happens before any HMAC
computation. -/
theorem C10_ckdpub_hardened_frame (C C' : Crypto) (K c : List Nat) (i : Nat)
    (h : i &&& BIP32_HARD ≠ 0) :
    (CKDpub C K c i).2 = c ∧ CKDpub C K c i = CKDpub C' K c i := by
  unfold CKDpub
  rw [if_pos h, if_pos h]
  exact ⟨rfl, rfl⟩

/-- Witness for C10 at two distinct concrete collaborator records (`CW` and
`Ccex`, which differ in their HMAC) and hardened index `2^31 + 5`. -/
theorem C10_ckdpub_hardened_frame_witness :
    (CKDpub CW (List.replicate 33 2) (List.replicate 32 1) 2147483653).2 =
      List.replicate 32 1 ∧
    CKDpub CW (List.replicate 33 2) (List.replicate 32 1) 2147483653 =
      CKDpub Ccex (List.replicate 33 2) (List.replicate 32 1) 2147483653 :=
  C10_ckdpub_hardened_frame CW Ccex (List.replicate 33 2) (List.replicate 32 1)
    2147483653 (by decide)

end BIP32
